import Mathlib

/-!
Shallow embedding of `src/NodeJsClient.js` (class `ApiClient`), the token-
authenticated HTTP client of this repository.  JavaScript values that the
client actually manipulates are modelled as follows:

* machine time is an `Int` of milliseconds since the epoch;
* a JS `Date` object is `JsDate`: either `invalid` (an Invalid Date, whose
  time value is NaN) or `valid ms`;
* JSON values are `JsonVal`;
* the browser `localStorage` is an association list of string entries,
  modelled as always available (the spec's "external key-value store");
* the network is an oracle: a list of `HttpResponse`s consumed in order by
  successive `fetch` calls; every issued request is recorded in a trace, so
  "no network call" is "the trace is empty";
* a thrown JS `Error` is an `JsError` value, one constructor per throw site
  of the source.

Effectful methods return a `StepResult`: the value or error, the updated
client state, the trace of HTTP requests issued, and the unconsumed part of
the network oracle.
-/

namespace ApiClient

/-- A JS `Date`: `invalid` is an Invalid Date (NaN time value), `valid ms`
holds the millisecond timestamp. -/
inductive JsDate where
  | invalid
  | valid (ms : Int)
deriving DecidableEq, Repr

/-- A JSON value, as produced by `response.json()`. -/
inductive JsonVal where
  | null
  | bool (b : Bool)
  | num (n : Int)
  | str (s : String)
  | arr (elems : List JsonVal)
  | obj (fields : List (String × JsonVal))
deriving Repr

/-- JS truthiness of a value: `null`, `false`, `0` and `""` are falsy,
objects and arrays are always truthy. -/
def jsTruthy : JsonVal → Bool
  | .null => false
  | .bool b => b
  | .num n => !(n == 0)
  | .str s => !(s == "")
  | .arr _ => true
  | .obj _ => true

/-- Truthiness of an optional string (absent, i.e. `null`/`undefined`, and
the empty string are falsy). -/
def truthyOptStr : Option String → Bool
  | none => false
  | some s => !(s == "")

/-- Truthiness of an optional JSON value (absent is falsy). -/
def truthyOptVal : Option JsonVal → Bool
  | none => false
  | some v => jsTruthy v

/-- Property access `v[k]` on a JSON value: `none` is JS `undefined`. -/
def getField (v : JsonVal) (k : String) : Option JsonVal :=
  match v with
  | .obj fields => (fields.find? (fun kv => kv.1 == k)).map (fun kv => kv.2)
  | _ => none

/-- String conversion applied by `URLSearchParams.append` and template
literals to a JS value.  Composite values do not occur as query parameters
or tokens in any claim; they are abbreviated (JS would comma-join array
elements and print `[object Object]` for objects). -/
def jsValToString : JsonVal → String
  | .str s => s
  | .num n => toString n
  | .bool b => if b then "true" else "false"
  | .null => "null"
  | .obj _ => "[object Object]"
  | .arr _ => ""

/-- The external key-value store (`localStorage`): entries in insertion
order. -/
abbrev Store := List (String × String)

/-- Model of `localStorage.getItem`. -/
def getItem (store : Store) (k : String) : Option String :=
  (List.find? (fun kv => kv.1 == k) store).map (fun kv => kv.2)

/-- Model of `localStorage.setItem`: overwrite in place, else append. -/
def setItem (store : Store) (k v : String) : Store :=
  if List.any store (fun kv => kv.1 == k) then
    List.map (fun kv => if kv.1 == k then (k, v) else kv) store
  else
    store ++ [(k, v)]

/-- Model of `localStorage.removeItem`. -/
def removeItem (store : Store) (k : String) : Store :=
  List.filter (fun kv => !(kv.1 == k)) store

/-- The mutable fields of an `ApiClient` instance, plus the external store.
`token` is `this.token` (a JSON value or `null`/`undefined`, merged into
`none`); `tokenExpiry` is `this.tokenExpiry` (a `Date` or `null`). -/
structure ClientState where
  baseUrl : String
  username : Option String
  password : Option String
  token : Option JsonVal
  tokenExpiry : Option JsDate
  store : Store
deriving Repr

/-- An HTTP request as issued by `fetch`.  The body is modelled as the JSON
value that `JSON.stringify` would serialize (no claim inspects the
serialized text). -/
structure HttpRequest where
  method : String
  url : String
  headers : List (String × String)
  body : Option JsonVal
deriving Repr

/-- An HTTP response from the oracle.  `body` is what `response.text()`
yields; `json` is what `response.json()` yields (`none` when the body is
not JSON, in which case `response.json()` rejects). -/
structure HttpResponse where
  status : Nat
  body : String
  json : Option JsonVal
deriving Repr

/-- The `response.ok` flag: status in the 2xx range. -/
def respOk (r : HttpResponse) : Bool :=
  200 ≤ r.status && r.status < 300

/-- The thrown JS errors, one constructor per throw site of the source:
`missingCredentials` is `'No credentials provided for authentication'`;
`authFailed` is `'Authentication failed: <status> - <body>'`;
`notAuthenticated` is `'Not authenticated'`;
`requestFailed` is `'API request failed: <status> - <body>'`;
`authFailedAfterRefresh` is `'Authentication failed after token refresh'`;
`networkError` models a rejected `fetch`; `jsonError` a rejected
`response.json()`; `rangeError` is the `RangeError: Invalid time value`
thrown by `Date.prototype.toISOString` on an Invalid Date. -/
inductive JsError where
  | missingCredentials
  | authFailed (status : Nat) (body : String)
  | notAuthenticated
  | requestFailed (status : Nat) (body : String)
  | authFailedAfterRefresh
  | networkError
  | jsonError
  | rangeError
deriving DecidableEq, Repr

/-- Result of an effectful client method: value, post-state, trace of HTTP
requests issued (in order), and the unconsumed network oracle. -/
structure StepResult (α : Type) where
  result : α
  state : ClientState
  calls : List HttpRequest
  net : List HttpResponse

/-- Rendering of a valid `Date`'s time value by `toISOString`, abstracted
to the decimal milliseconds (the claims depend on storability and
round-tripping, not on the concrete ISO-8601 text). -/
def dateToISO (ms : Int) : String := toString ms

/-- Accumulate decimal digits of a character list; any non-digit fails. -/
def parseDigitsAux : List Char → Nat → Option Nat
  | [], acc => some acc
  | c :: cs, acc =>
    if '0' ≤ c && c ≤ '9' then parseDigitsAux cs (10 * acc + (c.toNat - 48))
    else none

/-- Parse a decimal integer rendering (with optional leading minus);
`none` for the empty string or any other text. -/
def parseDecInt (s : String) : Option Int :=
  match s.data with
  | [] => none
  | '-' :: cs =>
    match cs with
    | [] => none
    | _ => Option.map (fun n => -(n : Int)) (parseDigitsAux cs 0)
  | cs => Option.map (fun n => (n : Int)) (parseDigitsAux cs 0)

/-- Model of JS date-string parsing (`new Date(string)`), the inverse of
`dateToISO`: a decimal millisecond rendering parses to that time value,
anything else is an Invalid Date. -/
def jsParseDate (s : String) : JsDate :=
  match parseDecInt s with
  | some n => .valid n
  | none => .invalid

/-- The test `baseUrl.endsWith('/')` of the constructor — the only
`endsWith` the source uses: does the string end in a slash? -/
def endsWithSlash (s : String) : Bool :=
  match s.data.reverse with
  | [] => false
  | c :: _ => c == '/'

/-- The test `endpoint.startsWith('/')` of `request`: does the string
begin with a slash? -/
def startsWithSlash (s : String) : Bool :=
  match s.data with
  | [] => false
  | c :: _ => c == '/'

/-- The expression `new Date(data.expires_at)` of `authenticate`.  The JS
`Date` constructor never throws: an absent field (`undefined`) or an
unparseable string yields an Invalid Date; `null` and booleans coerce to a
number of milliseconds. -/
def jsNewDateOfField : Option JsonVal → JsDate
  | none => .invalid
  | some (.str s) => jsParseDate s
  | some (.num n) => .valid n
  | some .null => .valid 0
  | some (.bool b) => .valid (if b then 1 else 0)
  | some (.arr _) => .invalid
  | some (.obj _) => .invalid

/-- Subtraction `expiry - now` on a `Date`: NaN (`none`) for an Invalid
Date. -/
def dateSub : JsDate → Int → Option Int
  | .invalid, _ => none
  | .valid e, now => some (e - now)

/-- The comparison `x > y` where `x` may be NaN: any comparison with NaN is
false. -/
def nanGt (x : Option Int) (y : Int) : Bool :=
  match x with
  | none => false
  | some v => y < v

/-- The 5-minute buffer of `isTokenValid`, in milliseconds. -/
def bufferTime : Int := 5 * 60 * 1000

/-- Method `isTokenValid()` (source lines 71-80): false unless `this.token`
and `this.tokenExpiry` are truthy (a `Date` object is always truthy, even
an Invalid Date) and `this.tokenExpiry - now` strictly exceeds the buffer.
It is a pure function of the state and the clock: no oracle is consumed and
no state is returned, so it can make no network call and no state change. -/
def isTokenValid (st : ClientState) (now : Int) : Bool :=
  if !(truthyOptVal st.token) || !(st.tokenExpiry.isSome) then
    false
  else
    match st.tokenExpiry with
    | none => false
    | some d => nanGt (dateSub d now) bufferTime

/-- Method `_clearStoredToken()` (source lines 58-65): remove both store
entries and null the in-memory token and expiry. -/
def clearStoredToken (st : ClientState) : ClientState :=
  { st with
    store := removeItem (removeItem st.store "api_token") "api_token_expiry",
    token := none,
    tokenExpiry := none }

/-- Method `_saveToken()` (source lines 47-52).  The source first stores
`api_token`, then evaluates `this.tokenExpiry.toISOString()`, which throws
`RangeError` on an Invalid Date — so on that path the store has gained the
token entry but not the expiry entry.  Returns the outcome and the
(possibly partially) updated state. -/
def saveToken (st : ClientState) : Except JsError Unit × ClientState :=
  if truthyOptVal st.token && st.tokenExpiry.isSome then
    match st.token, st.tokenExpiry with
    | some tok, some d =>
      let st1 := { st with store := setItem st.store "api_token" (jsValToString tok) }
      match d with
      | .invalid => (.error .rangeError, st1)
      | .valid ms =>
          (.ok (), { st1 with store := setItem st1.store "api_token_expiry" (dateToISO ms) })
    | _, _ => (.ok (), st)
  else
    (.ok (), st)

/-- Method `_loadStoredToken()` (source lines 26-41): when both store
entries are truthy, adopt them (parsing the expiry), then clear everything
if the adopted token is not valid.  When either entry is absent or empty,
nothing happens — in particular a lone entry is left in the store. -/
def loadStoredToken (st : ClientState) (now : Int) : ClientState :=
  match getItem st.store "api_token", getItem st.store "api_token_expiry" with
  | some tok, some exp =>
      if tok == "" || exp == "" then st
      else
        let st1 := { st with
          token := some (.str tok),
          tokenExpiry := some (jsParseDate exp) }
        if isTokenValid st1 now then st1 else clearStoredToken st1
  | _, _ => st

/-- The constructor (source lines 11-20): strip a trailing slash from the
base URL, take the credentials, start with no token, then load any stored
token.  `now` is the construction-time clock. -/
def mkClient (baseUrl : String) (username password : Option String)
    (store : Store) (now : Int) : ClientState :=
  let base := if endsWithSlash baseUrl then baseUrl.dropRight 1 else baseUrl
  loadStoredToken
    { baseUrl := base, username := username, password := password,
      token := none, tokenExpiry := none, store := store } now

/-- Method `getHeaders()` (source lines 166-171).  An absent token renders
into the template literal (`null`; the source may also print `undefined`,
which no claim distinguishes). -/
def getHeaders (st : ClientState) : List (String × String) :=
  [("Authorization", "Token " ++ (match st.token with
      | none => "null"
      | some v => jsValToString v)),
   ("Content-Type", "application/json")]

/-- Method `logout()` (source lines 530-533): just `_clearStoredToken`.
Pure state-to-state: no oracle, hence no network call. -/
def logout (st : ClientState) : ClientState :=
  clearStoredToken st

/-- The effect of `if (username) this.username = username` — a truthy
override replaces the stored credential. -/
def credAfter (stored over : Option String) : Option String :=
  if truthyOptStr over then over else stored

/-- Method `authenticate(username, password)` (source lines 89-140).
Overrides truthy credentials, throws `missingCredentials` before any
network call when the effective pair is incomplete, otherwise POSTs to
`{baseUrl}/api-token-auth/`.  On a 2xx response it takes `data.token` and
sets `tokenExpiry` to `new Date(data.expires_at)`.  The source wraps that
assignment in a try/catch with a "now + 24 hours" fallback, but the JS
`Date` constructor never throws (it yields an Invalid Date), so the catch
block is unreachable and has no counterpart here.  Then `_saveToken`, whose
`RangeError` (Invalid Date) propagates through the outer catch, which
rethrows every error. -/
def authenticate (st0 : ClientState) (net : List HttpResponse)
    (username password : Option String) : StepResult (Except JsError Bool) :=
  let st2 := { st0 with
    username := credAfter st0.username username,
    password := credAfter st0.password password }
  if !(truthyOptStr st2.username) || !(truthyOptStr st2.password) then
    ⟨.error .missingCredentials, st2, [], net⟩
  else
    let req : HttpRequest :=
      { method := "POST",
        url := st2.baseUrl ++ "/api-token-auth/",
        headers := [("Content-Type", "application/json")],
        body := some (.obj [("username", .str (st2.username.getD "")),
                            ("password", .str (st2.password.getD ""))]) }
    match net with
    | [] => ⟨.error .networkError, st2, [req], []⟩
    | resp :: rest =>
      if respOk resp then
        match resp.json with
        | none => ⟨.error .jsonError, st2, [req], rest⟩
        | some data =>
          let st4 := { st2 with
            token := getField data "token",
            tokenExpiry := some (jsNewDateOfField (getField data "expires_at")) }
          match saveToken st4 with
          | (.error e, st5) => ⟨.error e, st5, [req], rest⟩
          | (.ok _, st5) => ⟨.ok true, st5, [req], rest⟩
      else
        ⟨.error (.authFailed resp.status resp.body), st2, [req], rest⟩

/-- Method `ensureAuthenticated()` (source lines 146-160): fast path when
the token is valid, otherwise `authenticate()` with the stored credentials,
converting a thrown error into `false`. -/
def ensureAuthenticated (st : ClientState) (now : Int)
    (net : List HttpResponse) : StepResult Bool :=
  if isTokenValid st now then
    ⟨true, st, [], net⟩
  else
    match authenticate st net none none with
    | ⟨.ok b, st1, calls, rest⟩ => ⟨b, st1, calls, rest⟩
    | ⟨.error _, st1, calls, rest⟩ => ⟨false, st1, calls, rest⟩

/-- Query-string escaping of `URLSearchParams`
(application/x-www-form-urlencoded): alphanumerics and `*-._` unchanged,
space becomes `+`, everything else percent-encoded per UTF-8 byte. -/
def formUnreserved (c : Char) : Bool :=
  ('a' ≤ c && c ≤ 'z') || ('A' ≤ c && c ≤ 'Z') || ('0' ≤ c && c ≤ '9') ||
    c == '*' || c == '-' || c == '.' || c == '_'

/-- Uppercase hex digit. -/
def hexDigit (n : Nat) : Char :=
  if n < 10 then Char.ofNat (48 + n) else Char.ofNat (55 + n)

/-- Percent-encoding of one byte. -/
def byteHex (b : UInt8) : String :=
  String.mk ['%', hexDigit (b.toNat / 16), hexDigit (b.toNat % 16)]

/-- Encoding of one character for the query string. -/
def encodeChar (c : Char) : String :=
  if formUnreserved c then String.singleton c
  else if c == ' ' then "+"
  else String.join (List.map byteHex (String.toUTF8 (String.singleton c)).toList)

/-- URL encoding of a whole string, character by character. -/
def urlEncode (s : String) : String :=
  String.join (List.map encodeChar s.data)

/-- The `URLSearchParams` serialization of the appended entries. -/
def queryString (params : List (String × JsonVal)) : String :=
  String.intercalate "&"
    (List.map (fun kv => urlEncode kv.1 ++ "=" ++ urlEncode (jsValToString kv.2)) params)

/-- Strip one leading slash from the endpoint. -/
def stripLeadingSlash (e : String) : String :=
  if startsWithSlash e then e.drop 1 else e

/-- URL construction of `request` (source lines 190-198): join base URL and
endpoint, appending `?` and the encoded parameters when a parameter object
was passed (even an empty one — JS `if (params)` is true for `{}`). -/
def buildUrl (base endpoint : String) (params : Option (List (String × JsonVal))) : String :=
  let u := base ++ "/" ++ stripLeadingSlash endpoint
  match params with
  | none => u
  | some ps => u ++ "?" ++ queryString ps

/-- The tail of `request` handling one response (source lines 229-236):
2xx returns the parsed JSON, anything else throws `requestFailed` with
status and body text. -/
def finishResponse (r : HttpResponse) : Except JsError JsonVal :=
  if respOk r then
    match r.json with
    | some j => .ok j
    | none => .error .jsonError
  else
    .error (.requestFailed r.status r.body)

/-- The try block of `request` (source lines 210-241), entered with the
post-`ensureAuthenticated` state, the built URL, method and optional body:
fetch once; on a 401, clear the stored token, re-authenticate once (an
authentication error is rethrown by the catch), and on success retry the
same request exactly once with refreshed headers; any non-2xx final
response throws `requestFailed`. -/
def requestCore (st1 : ClientState) (net : List HttpResponse)
    (url method : String) (b : Option JsonVal) : StepResult (Except JsError JsonVal) :=
  let req1 : HttpRequest := { method := method, url := url, headers := getHeaders st1, body := b }
  match net with
  | [] => ⟨.error .networkError, st1, [req1], []⟩
  | r1 :: rest1 =>
    if r1.status == 401 then
      let st2 := clearStoredToken st1
      match authenticate st2 rest1 none none with
      | ⟨.error e, st3, calls2, rest2⟩ => ⟨.error e, st3, req1 :: calls2, rest2⟩
      | ⟨.ok refreshed, st3, calls2, rest2⟩ =>
        if refreshed then
          let req2 : HttpRequest :=
            { method := method, url := url, headers := getHeaders st3, body := b }
          match rest2 with
          | [] => ⟨.error .networkError, st3, req1 :: (calls2 ++ [req2]), []⟩
          | r2 :: rest3 => ⟨finishResponse r2, st3, req1 :: (calls2 ++ [req2]), rest3⟩
        else
          ⟨.error .authFailedAfterRefresh, st3, req1 :: calls2, rest2⟩
    else
      ⟨finishResponse r1, st1, [req1], rest1⟩

/-- Method `request(endpoint, method, params, body)` (source lines
182-241): `ensureAuthenticated` first, throwing `notAuthenticated` when it
returns false (before building or issuing the HTTP request); then the URL
is built, a body is attached only for POST/PUT/PATCH with a truthy body,
and the try block runs. -/
def request (st0 : ClientState) (now : Int) (net : List HttpResponse)
    (endpoint method : String) (params : Option (List (String × JsonVal)))
    (body : Option JsonVal) : StepResult (Except JsError JsonVal) :=
  let ea := ensureAuthenticated st0 now net
  if !ea.result then
    ⟨.error .notAuthenticated, ea.state, ea.calls, ea.net⟩
  else
    let url := buildUrl ea.state.baseUrl endpoint params
    let bodyOpt :=
      if truthyOptVal body && (method == "POST" || method == "PUT" || method == "PATCH")
      then body else none
    let core := requestCore ea.state ea.net url method bodyOpt
    ⟨core.result, core.state, ea.calls ++ core.calls, core.net⟩

/-- JS object-literal update: a spread entry overwrites an existing key in
place, otherwise appends (all keys involved here are non-integer-like
strings, for which JS preserves insertion order). -/
def objInsert (l : List (String × JsonVal)) (k : String) (v : JsonVal) :
    List (String × JsonVal) :=
  if List.any l (fun kv => kv.1 == k) then
    List.map (fun kv => if kv.1 == k then (k, v) else kv) l
  else
    l ++ [(k, v)]

/-- The object literal `{page, page_size: pageSize, ...filters}`. -/
def spreadInto (base ext : List (String × JsonVal)) : List (String × JsonVal) :=
  List.foldl (fun acc kv => objInsert acc kv.1 kv.2) base ext

/-- Method `getV53aList(page, pageSize, filters)` (source lines 250-258):
GET `api/v53a/` with query `{page, page_size: pageSize, ...filters}`. -/
def getV53aList (st : ClientState) (now : Int) (net : List HttpResponse)
    (page pageSize : Int) (filters : List (String × JsonVal)) :
    StepResult (Except JsError JsonVal) :=
  let params := spreadInto [("page", .num page), ("page_size", .num pageSize)] filters
  request st now net "api/v53a/" "GET" (some params) none

/-- Discriminator for the `requestFailed` error kind. -/
def isRequestFailed : Except JsError JsonVal → Bool
  | .error (.requestFailed _ _) => true
  | _ => false

/-- Fixture: a client holding a currently valid token `abc` (expiry far in
the future relative to clock 0) together with matching store entries and
stored credentials. -/
def stValid : ClientState :=
  { baseUrl := "http://aiprediction.us", username := some "user", password := some "pw",
    token := some (.str "abc"), tokenExpiry := some (.valid 86400000),
    store := [("api_token", "abc"), ("api_token_expiry", "86400000")] }

/-- Fixture: a freshly constructed client with credentials and an empty
store (note the trailing slash stripped by the constructor). -/
def stFresh : ClientState :=
  mkClient "http://aiprediction.us/" (some "user") (some "pw") [] 0

/-- Fixture: a client with neither token nor credentials. -/
def stEmpty : ClientState :=
  { baseUrl := "http://x", username := none, password := none,
    token := none, tokenExpiry := none, store := [] }

/-- Removing a key makes it unreadable. -/
theorem getItem_removeItem_self (store : Store) (k : String) :
    getItem (removeItem store k) k = none := by
  have h : List.find? (fun kv => kv.1 == k) (removeItem store k) = none := by
    rw [List.find?_eq_none]
    intro x hx
    have hmem := List.mem_filter.mp hx
    simpa using hmem.2
  simp [getItem, h]

/-- Removing a key leaves every other key unchanged. -/
theorem getItem_removeItem_other (store : Store) (k k' : String) (h : k' ≠ k) :
    getItem (removeItem store k) k' = getItem store k' := by
  induction store with
  | nil => rfl
  | cons kv rest ih =>
    by_cases hk : kv.1 = k
    · have h1 : (kv.1 == k) = true := by simpa using hk
      have h2 : (kv.1 == k') = false := by
        rw [hk]; exact beq_eq_false_iff_ne.mpr (fun hkk => h hkk.symm)
      simp [removeItem, getItem, List.filter_cons, h1, h2] at *
      exact ih
    · have h1 : (kv.1 == k) = false := beq_eq_false_iff_ne.mpr hk
      by_cases hk' : kv.1 = k'
      · have h2 : (kv.1 == k') = true := by simpa using hk'
        simp [removeItem, getItem, List.filter_cons, h1, h2]
      · have h2 : (kv.1 == k') = false := beq_eq_false_iff_ne.mpr hk'
        simp [removeItem, getItem, List.filter_cons, h1, h2] at *
        exact ih

/-- Claim C3: `isTokenValid` returns true exactly when a (truthy) token is
present and the expiry is a genuine (non-NaN) timestamp whose distance to
the clock strictly exceeds the 5-minute buffer; in particular it is false
whenever `expiry - now` is at most 5 minutes (or is NaN).  The check is a
pure function of the state and the clock: it consumes no network oracle and
returns no state, so it cannot make a network call or change state. -/
theorem tokenValid_iff (st : ClientState) (now : Int) :
    isTokenValid st now = true ↔
      ((∃ t, st.token = some t ∧ jsTruthy t = true) ∧
        ∃ e, st.tokenExpiry = some (JsDate.valid e) ∧ 5 * 60 * 1000 < e - now) := by
  unfold isTokenValid
  cases htok : st.token with
  | none => simp [truthyOptVal]
  | some t =>
    cases hexp : st.tokenExpiry with
    | none => simp [truthyOptVal]
    | some d =>
      cases d with
      | invalid => simp [truthyOptVal, nanGt, dateSub]
      | valid e =>
        by_cases ht : jsTruthy t = true
        · simp [truthyOptVal, ht, nanGt, dateSub, bufferTime]
        · simp [truthyOptVal, Bool.eq_false_iff.mpr ht, ht]

/-- Claim C4: when the effective credential pair (stored, possibly
overridden by truthy arguments) is incomplete, `authenticate` fails with
the missing-credentials error, issues no network request, and leaves the
cached token and expiry untouched. -/
theorem authenticate_missing_credentials (st : ClientState) (net : List HttpResponse)
    (u p : Option String)
    (h : truthyOptStr (credAfter st.username u) = false ∨
         truthyOptStr (credAfter st.password p) = false) :
    (authenticate st net u p).result = .error .missingCredentials ∧
    (authenticate st net u p).calls = [] ∧
    (authenticate st net u p).state.token = st.token ∧
    (authenticate st net u p).state.tokenExpiry = st.tokenExpiry := by
  unfold authenticate
  rcases h with h | h <;> simp [h]

/-- Witness for C4 at a concrete input: a client with no credentials at
all. -/
theorem authenticate_missing_credentials_witness :
    (authenticate stEmpty [] none none).result = .error .missingCredentials ∧
    (authenticate stEmpty [] none none).calls = [] :=
  ⟨(authenticate_missing_credentials stEmpty [] none none (Or.inl rfl)).1,
   (authenticate_missing_credentials stEmpty [] none none (Or.inl rfl)).2.1⟩

/-- Claim C8: `logout` nulls the in-memory token and expiry, removes
exactly the two token entries from the external store, changes nothing
else (base URL, credentials, every other store key), and afterwards
`isTokenValid` is false.  It is a pure state-to-state function: no network
oracle is consumed, so no network call can occur. -/
theorem logout_spec (st : ClientState) (now : Int) :
    (logout st).token = none ∧
    (logout st).tokenExpiry = none ∧
    getItem (logout st).store "api_token" = none ∧
    getItem (logout st).store "api_token_expiry" = none ∧
    (logout st).baseUrl = st.baseUrl ∧
    (logout st).username = st.username ∧
    (logout st).password = st.password ∧
    (∀ k, k ≠ "api_token" → k ≠ "api_token_expiry" →
        getItem (logout st).store k = getItem st.store k) ∧
    isTokenValid (logout st) now = false := by
  refine ⟨rfl, rfl, ?_, ?_, rfl, rfl, rfl, ?_, rfl⟩
  · show getItem (removeItem (removeItem st.store "api_token") "api_token_expiry")
        "api_token" = none
    rw [getItem_removeItem_other _ _ _ (by decide), getItem_removeItem_self]
  · exact getItem_removeItem_self _ _
  · intro k h1 h2
    show getItem (removeItem (removeItem st.store "api_token") "api_token_expiry") k
        = getItem st.store k
    rw [getItem_removeItem_other _ _ _ h2, getItem_removeItem_other _ _ _ h1]

/-- Witness for C8 at a concrete input: logging out of `stValid` (whose
store also holds an unrelated entry, which must survive). -/
theorem logout_spec_witness :
    isTokenValid (logout stValid) 0 = false ∧
    getItem (logout stValid).store "api_token" = none ∧
    getItem (logout stValid).store "api_token_expiry" = none :=
  ⟨(logout_spec stValid 0).2.2.2.2.2.2.2.2,
   (logout_spec stValid 0).2.2.1,
   (logout_spec stValid 0).2.2.2.1⟩

/-- Claim C5: with a valid token `ensureAuthenticated` returns true at
once, consuming nothing and changing nothing; otherwise it is
`authenticate` with the stored credentials (no overrides), except that a
thrown error becomes the return value `false` instead of propagating. -/
theorem ensureAuthenticated_spec (st : ClientState) (now : Int) (net : List HttpResponse) :
    (isTokenValid st now = true →
        ensureAuthenticated st now net = ⟨true, st, [], net⟩) ∧
    (isTokenValid st now = false →
        (ensureAuthenticated st now net).state = (authenticate st net none none).state ∧
        (ensureAuthenticated st now net).calls = (authenticate st net none none).calls ∧
        (ensureAuthenticated st now net).net = (authenticate st net none none).net ∧
        (∀ e, (authenticate st net none none).result = .error e →
            (ensureAuthenticated st now net).result = false) ∧
        (∀ b, (authenticate st net none none).result = .ok b →
            (ensureAuthenticated st now net).result = b)) := by
  constructor
  · intro h
    unfold ensureAuthenticated
    simp [h]
  · intro h
    unfold ensureAuthenticated
    rcases ha : authenticate st net none none with ⟨res, st1, calls, rest⟩
    cases res <;> simp [h, ha]

/-- Witness for C5 at a concrete input: no token and no credentials, so
`authenticate` throws and `ensureAuthenticated` returns false. -/
theorem ensureAuthenticated_spec_witness :
    (ensureAuthenticated stEmpty 0 []).result = false :=
  ((ensureAuthenticated_spec stEmpty 0 []).2 rfl).2.2.2.1 .missingCredentials rfl

/-- Claim C2 (failing input): a successful authentication response whose
body has a `token` but no `expires_at`.  The JS `Date` constructor never
throws, so the source's catch-block fallback to "now + 24 hours" is dead
code: `tokenExpiry` becomes an Invalid Date, and `_saveToken` then throws
`RangeError` from `toISOString`, so `authenticate` fails outright, with the
expiry never persisted (the store gains only the partial `api_token`
entry).  The claimed now+24h expiry is never set. -/
theorem authenticate_no_expires_at_bug :
    (authenticate stFresh [⟨200, "", some (.obj [("token", .str "abc")])⟩] none none).state.tokenExpiry
      = some JsDate.invalid ∧
    (authenticate stFresh [⟨200, "", some (.obj [("token", .str "abc")])⟩] none none).result
      = .error .rangeError ∧
    getItem (authenticate stFresh [⟨200, "", some (.obj [("token", .str "abc")])⟩] none none).state.store
      "api_token_expiry" = none ∧
    getItem (authenticate stFresh [⟨200, "", some (.obj [("token", .str "abc")])⟩] none none).state.store
      "api_token" = some "abc" :=
  ⟨rfl, rfl, rfl, rfl⟩

/-- Fixture: the authentication response of the C7 scenario (token `abc`,
expiry 24 hours after clock 0). -/
def c7AuthResp : HttpResponse :=
  ⟨200, "", some (.obj [("token", .str "abc"), ("expires_at", .str "86400000")])⟩

/-- Fixture: the list body returned by the API in the C7 scenario. -/
def c7Body : JsonVal := .obj [("count", .num 1)]

/-- Fixture: the client state after the C7 scenario's authentication. -/
def c7St : ClientState := (authenticate stFresh [c7AuthResp] none none).state

/-- Fixture: the C7 scenario's list call. -/
def c7Out : StepResult (Except JsError JsonVal) :=
  getV53aList c7St 0 [⟨200, "", some c7Body⟩] 1 10 []

/-- With a valid token, `ensureAuthenticated` is the identity fast path. -/
theorem ensureAuthenticated_valid (st : ClientState) (now : Int)
    (net : List HttpResponse) (hv : isTokenValid st now = true) :
    ensureAuthenticated st now net = ⟨true, st, [], net⟩ := by
  unfold ensureAuthenticated
  rw [if_pos hv]

/-- The first call the try block issues is always the built request, in
every branch (initial fetch, before any 401 handling). -/
theorem requestCore_calls_head (st : ClientState) (net : List HttpResponse)
    (url method : String) (b : Option JsonVal) :
    ((requestCore st net url method b).calls).head?
      = some ⟨method, url, getHeaders st, b⟩ := by
  unfold requestCore
  cases net with
  | nil => rfl
  | cons r1 rest1 =>
    dsimp only
    by_cases h : (r1.status == 401) = true
    · rw [if_pos h]
      rcases authenticate (clearStoredToken st) rest1 none none with ⟨res, st3, calls2, rest2⟩
      cases res with
      | error e => rfl
      | ok refreshed =>
        cases refreshed with
        | false => rfl
        | true => cases rest2 <;> rfl
    · rw [if_neg h]
      rfl

/-- Stripping the leading slash undoes prepending one: the reason the
join never produces a double slash. -/
theorem stripLeadingSlash_slash (e : String) :
    stripLeadingSlash ("/" ++ e) = e := by
  have hd : ("/" ++ e).data = '/' :: e.data := rfl
  have hs : startsWithSlash ("/" ++ e) = true := by
    unfold startsWithSlash
    rw [hd]
    rfl
  unfold stripLeadingSlash
  rw [if_pos hs]
  apply String.ext
  rw [String.data_drop, hd]
  rfl

/-- With a valid token (fast path, no authentication call first), the
first request `request` issues carries exactly the built URL and the
authorization headers of the current state. -/
theorem request_first_call (st : ClientState) (now : Int)
    (net : List HttpResponse) (endpoint method : String)
    (params : Option (List (String × JsonVal)))
    (hv : isTokenValid st now = true) :
    (request st now net endpoint method params none).calls.head?
      = some ⟨method, buildUrl st.baseUrl endpoint params, getHeaders st, none⟩ := by
  unfold request
  dsimp only
  rw [ensureAuthenticated_valid st now net hv]
  simp only [Bool.not_true, Bool.false_eq_true, if_false, List.nil_append]
  rw [requestCore_calls_head]
  rfl

/-- Claim C7: for every endpoint and every query-parameter map, a request
made with a valid token issues first (and, before any 401 retry, only)
the URL obtained by joining the base URL (trailing slash stripped at
construction) and the endpoint with its leading slash stripped, appending
`?` and the URL-encoded parameters; an endpoint given with a leading
slash yields the same call as one without (no double slash).  In
particular, end to end: authenticating a freshly constructed client
(base URL given with a trailing slash, which the constructor strips)
yields token `abc` valid at clock 0, and `list(1,10,{})` issues exactly
`GET http://aiprediction.us/api/v53a/?page=1&page_size=10` carrying
`Authorization: Token abc`, returning the decoded JSON body unchanged. -/
theorem request_url_building (st : ClientState) (now : Int)
    (net : List HttpResponse) (endpoint method : String)
    (ps : List (String × JsonVal)) (hv : isTokenValid st now = true) :
    ((request st now net endpoint method (some ps) none).calls.head?
      = some ⟨method,
          st.baseUrl ++ "/" ++ stripLeadingSlash endpoint ++ "?" ++ queryString ps,
          getHeaders st, none⟩) ∧
    ((request st now net endpoint method none none).calls.head?
      = some ⟨method, st.baseUrl ++ "/" ++ stripLeadingSlash endpoint,
          getHeaders st, none⟩) ∧
    stripLeadingSlash ("/" ++ endpoint) = endpoint ∧
    ((request st now net ("/" ++ endpoint) method (some ps) none).calls.head?
      = some ⟨method, st.baseUrl ++ "/" ++ endpoint ++ "?" ++ queryString ps,
          getHeaders st, none⟩) ∧
    (authenticate stFresh [c7AuthResp] none none).result = .ok true ∧
    isTokenValid c7St 0 = true ∧
    c7Out.calls = [⟨"GET", "http://aiprediction.us/api/v53a/?page=1&page_size=10",
        [("Authorization", "Token abc"), ("Content-Type", "application/json")], none⟩] ∧
    c7Out.result = .ok c7Body := by
  refine ⟨?_, ?_, stripLeadingSlash_slash endpoint, ?_, rfl, rfl, rfl, rfl⟩
  · rw [request_first_call st now net endpoint method (some ps) hv]
    rfl
  · rw [request_first_call st now net endpoint method none hv]
    rfl
  · rw [request_first_call st now net ("/" ++ endpoint) method (some ps) hv]
    unfold buildUrl
    rw [stripLeadingSlash_slash]

/-- Witness for C7 at a concrete input: `stValid` with an endpoint given
WITH a leading slash, which is stripped in the issued URL. -/
theorem request_url_building_witness :
    (request stValid 0 [] "/api/v53a/" "GET" (some [("page", JsonVal.num 1)]) none).calls.head?
      = some ⟨"GET", "http://aiprediction.us/api/v53a/?page=1",
          [("Authorization", "Token abc"), ("Content-Type", "application/json")], none⟩ :=
  (request_url_building stValid 0 [] "/api/v53a/" "GET" [("page", JsonVal.num 1)] rfl).1

/-- Claim C9 (counterexample): a store holding only the `api_token` entry
and no `api_token_expiry`.  After construction the in-memory token and
expiry are null, but the lone store entry is NOT removed, contradicting
the claim that the two token entries have been removed from the external
store whenever the loaded token is not valid. -/
theorem mkClient_lone_entry_counterexample :
    (mkClient "http://x" none none [("api_token", "abc")] 0).token = none ∧
    (mkClient "http://x" none none [("api_token", "abc")] 0).tokenExpiry = none ∧
    isTokenValid (mkClient "http://x" none none [("api_token", "abc")] 0) 0 = false ∧
    getItem (mkClient "http://x" none none [("api_token", "abc")] 0).store "api_token"
      = some "abc" :=
  ⟨rfl, rfl, rfl, rfl⟩

/-- Loading is the identity when the `api_token` entry is absent. -/
theorem loadStoredToken_none_left (st : ClientState) (now : Int)
    (h : getItem st.store "api_token" = none) :
    loadStoredToken st now = st := by
  unfold loadStoredToken
  rw [h]

/-- Loading is the identity when the `api_token_expiry` entry is absent. -/
theorem loadStoredToken_none_right (st : ClientState) (now : Int)
    (h : getItem st.store "api_token_expiry" = none) :
    loadStoredToken st now = st := by
  unfold loadStoredToken
  rw [h]
  cases getItem st.store "api_token" <;> rfl

/-- Loading with both entries present follows the adopt-then-validate
branch of the source. -/
theorem loadStoredToken_some_some (st : ClientState) (now : Int) (tok exp : String)
    (hT : getItem st.store "api_token" = some tok)
    (hE : getItem st.store "api_token_expiry" = some exp) :
    loadStoredToken st now =
      (if tok == "" || exp == "" then st
       else
        let st1 := { st with token := some (.str tok), tokenExpiry := some (jsParseDate exp) }
        if isTokenValid st1 now then st1 else clearStoredToken st1) := by
  unfold loadStoredToken
  rw [hT, hE]

/-- The post-construction token invariant, stated over `_loadStoredToken`
run on any state with no in-memory token (as the constructor does). -/
theorem loadStoredToken_invariant (st0 : ClientState) (now : Int)
    (htok : st0.token = none) (hexp : st0.tokenExpiry = none) :
    (isTokenValid (loadStoredToken st0 now) now = true ∨
      ((loadStoredToken st0 now).token = none ∧
        (loadStoredToken st0 now).tokenExpiry = none)) ∧
    (∀ tok exp, getItem st0.store "api_token" = some tok →
        getItem st0.store "api_token_expiry" = some exp →
        (tok == "") = false → (exp == "") = false →
        isTokenValid (loadStoredToken st0 now) now = false →
        getItem (loadStoredToken st0 now).store "api_token" = none ∧
        getItem (loadStoredToken st0 now).store "api_token_expiry" = none) := by
  cases hT : getItem st0.store "api_token" with
  | none =>
    rw [loadStoredToken_none_left st0 now hT]
    refine ⟨Or.inr ⟨htok, hexp⟩, ?_⟩
    intro tok exp hT' _ _ _ _
    exact Option.noConfusion hT'
  | some tok =>
    cases hE : getItem st0.store "api_token_expiry" with
    | none =>
      rw [loadStoredToken_none_right st0 now hE]
      refine ⟨Or.inr ⟨htok, hexp⟩, ?_⟩
      intro tok' exp hT' hE' _ _ _
      exact Option.noConfusion hE'
    | some exp =>
      rw [loadStoredToken_some_some st0 now tok exp hT hE]
      by_cases he : (tok == "" || exp == "") = true
      · rw [if_pos he]
        refine ⟨Or.inr ⟨htok, hexp⟩, ?_⟩
        intro tok' exp' hT' hE' hne1 hne2 _
        injection hT' with h1; injection hE' with h2
        subst h1; subst h2
        rcases (Bool.or_eq_true _ _).mp he with h | h
        · rw [h] at hne1; cases hne1
        · rw [h] at hne2; cases hne2
      · rw [if_neg he]
        dsimp only
        by_cases hv : isTokenValid
            { st0 with token := some (.str tok), tokenExpiry := some (jsParseDate exp) }
            now = true
        · rw [if_pos hv]
          refine ⟨Or.inl hv, ?_⟩
          intro tok' exp' _ _ _ _ hfalse
          rw [hv] at hfalse
          cases hfalse
        · rw [if_neg hv]
          refine ⟨Or.inr ⟨rfl, rfl⟩, ?_⟩
          intro tok' exp' _ _ _ _ _
          constructor
          · show getItem (removeItem (removeItem st0.store "api_token") "api_token_expiry")
                "api_token" = none
            rw [getItem_removeItem_other _ _ _ (by decide), getItem_removeItem_self]
          · exact getItem_removeItem_self _ _

/-- Claim C9 as amended: after construction either the loaded token is
valid, or the in-memory token and expiry are null; and when both store
entries were present and non-empty but the resulting token is not valid,
both entries are removed from the store.  (When at most one entry is
present the store is left untouched, so a lone entry may remain — the
uncorrected claim fails there.) -/
theorem mkClient_token_invariant (baseUrl : String) (u p : Option String)
    (store : Store) (now : Int) :
    (isTokenValid (mkClient baseUrl u p store now) now = true ∨
      ((mkClient baseUrl u p store now).token = none ∧
        (mkClient baseUrl u p store now).tokenExpiry = none)) ∧
    (∀ tok exp, getItem store "api_token" = some tok →
        getItem store "api_token_expiry" = some exp →
        (tok == "") = false → (exp == "") = false →
        isTokenValid (mkClient baseUrl u p store now) now = false →
        getItem (mkClient baseUrl u p store now).store "api_token" = none ∧
        getItem (mkClient baseUrl u p store now).store "api_token_expiry" = none) := by
  have h := loadStoredToken_invariant
    { baseUrl := if endsWithSlash baseUrl then baseUrl.dropRight 1 else baseUrl,
      username := u, password := p, token := none, tokenExpiry := none, store := store }
    now rfl rfl
  exact h

/-- Witness for C9's amended theorem at a concrete input: both entries
present but expired at clock 10^9, so both are removed. -/
theorem mkClient_token_invariant_witness :
    getItem (mkClient "http://x" none none
        [("api_token", "abc"), ("api_token_expiry", "0")] 1000000000).store "api_token" = none ∧
    getItem (mkClient "http://x" none none
        [("api_token", "abc"), ("api_token_expiry", "0")] 1000000000).store "api_token_expiry"
      = none :=
  (mkClient_token_invariant "http://x" none none
      [("api_token", "abc"), ("api_token_expiry", "0")] 1000000000).2
    "abc" "0" rfl rfl rfl rfl rfl

/-- Claim C10: in `getV53aList` the filters are spread after the explicit
`page` and `page_size` entries, so a filter with one of those keys
overrides the explicit argument (in place, preserving parameter order).
Stated for any override values, plus a concrete end-to-end call showing
`list(3,25,{page:"7"})` sends `page=7&page_size=25`. -/
theorem getV53aList_filters_override (st : ClientState) (now : Int)
    (net : List HttpResponse) (v w : JsonVal) (page pageSize : Int) :
    getV53aList st now net page pageSize [("page", v), ("page_size", w)]
      = request st now net "api/v53a/" "GET" (some [("page", v), ("page_size", w)]) none ∧
    getV53aList st now net page pageSize [("page", v)]
      = request st now net "api/v53a/" "GET"
          (some [("page", v), ("page_size", .num pageSize)]) none ∧
    (getV53aList stValid 0 [⟨200, "", some .null⟩] 3 25 [("page", .str "7")]).calls.map
        (fun r => r.url)
      = ["http://aiprediction.us/api/v53a/?page=7&page_size=25"] :=
  ⟨rfl, rfl, rfl⟩

/-- Claim C1 (counterexample): first response 401, and the
re-authentication during the retry fails with a 400.  The claim says this
surfaces as a `RequestFailed` error; the code instead rethrows the
authentication error (`Authentication failed: 400 - ...`), which is the
`AuthenticationFailed` kind, not `RequestFailed`. -/
theorem request_retry_auth_error_counterexample :
    (request stValid 0 [⟨401, "unauthorized", none⟩, ⟨400, "bad credentials", none⟩]
        "api/v53a/" "GET" none none).result = .error (.authFailed 400 "bad credentials") ∧
    isRequestFailed (request stValid 0
        [⟨401, "unauthorized", none⟩, ⟨400, "bad credentials", none⟩]
        "api/v53a/" "GET" none none).result = false :=
  ⟨rfl, rfl⟩

/-- One `authenticate` call consumes at most the head of the oracle. -/
theorem authenticate_net_cases (st : ClientState) (net : List HttpResponse)
    (u p : Option String) :
    (authenticate st net u p).net = net ∨ (authenticate st net u p).net = net.tail := by
  unfold authenticate
  dsimp only
  by_cases hc : (!truthyOptStr (credAfter st.username u) ||
      !truthyOptStr (credAfter st.password p)) = true
  · rw [if_pos hc]
    exact Or.inl rfl
  · rw [if_neg hc]
    cases net with
    | nil => exact Or.inl rfl
    | cons resp rest =>
      right
      dsimp only
      repeat' split
      all_goals rfl

/-- `ensureAuthenticated` consumes at most the head of the oracle. -/
theorem ensureAuthenticated_net_cases (st : ClientState) (now : Int)
    (net : List HttpResponse) :
    (ensureAuthenticated st now net).net = net ∨
      (ensureAuthenticated st now net).net = net.tail := by
  unfold ensureAuthenticated
  split
  · exact Or.inl rfl
  · have h := authenticate_net_cases st net none none
    rcases ha : authenticate st net none none with ⟨res, st1, calls, rest⟩
    rw [ha] at h
    cases res <;> simpa using h

/-- Characterization of a successful `finishResponse`. -/
theorem finishResponse_ok_iff (r : HttpResponse) (j : JsonVal) :
    finishResponse r = .ok j ↔ respOk r = true ∧ r.json = some j := by
  unfold finishResponse
  by_cases h : respOk r = true
  · rw [if_pos h]
    cases hj : r.json with
    | none => simp [h]
    | some j' => simp [h]
  · rw [if_neg h]
    simp [h]

/-- A non-2xx response finishes as a `requestFailed` error. -/
theorem finishResponse_not_ok (r : HttpResponse) (h : respOk r = false) :
    finishResponse r = .error (.requestFailed r.status r.body) := by
  unfold finishResponse
  simp [h]

/-- Any JSON value returned by the try block of `request` is the parsed
body of a successful response taken from the oracle. -/
theorem requestCore_ok_mem (st : ClientState) (net : List HttpResponse)
    (url method : String) (b : Option JsonVal) (j : JsonVal)
    (h : (requestCore st net url method b).result = .ok j) :
    ∃ r, r ∈ net ∧ respOk r = true ∧ r.json = some j := by
  unfold requestCore at h
  cases net with
  | nil => exact absurd h (by simp)
  | cons r1 rest1 =>
    dsimp only at h
    by_cases h401 : (r1.status == 401) = true
    · rw [if_pos h401] at h
      have hnet := authenticate_net_cases (clearStoredToken st) rest1 none none
      rcases ha : authenticate (clearStoredToken st) rest1 none none with
        ⟨res, st3, calls2, rest2⟩
      rw [ha] at h hnet
      dsimp only at h hnet
      cases res with
      | error e => exact absurd h (by simp)
      | ok refreshed =>
        cases refreshed with
        | false => exact absurd h (by simp)
        | true =>
          dsimp only at h
          cases rest2 with
          | nil => exact absurd h (by simp)
          | cons r2 rest3 =>
            dsimp only at h
            have h2 := (finishResponse_ok_iff r2 j).mp h
            refine ⟨r2, ?_, h2.1, h2.2⟩
            have hr2 : r2 ∈ rest1 := by
              rcases hnet with h' | h'
              · rw [← h']; exact List.mem_cons_self r2 rest3
              · have hmem : r2 ∈ rest1.tail := by
                  rw [← h']; exact List.mem_cons_self r2 rest3
                exact List.mem_of_mem_tail hmem
            exact List.mem_cons_of_mem r1 hr2
    · rw [if_neg h401] at h
      dsimp only at h
      have h2 := (finishResponse_ok_iff r1 j).mp h
      exact ⟨r1, List.mem_cons_self r1 rest1, h2.1, h2.2⟩

/-- Claim C6: `request` runs `ensureAuthenticated` first and, whenever that
returns false, fails with `notAuthenticated` having issued no request
beyond those of the authentication attempt itself (in particular the
endpoint request is never issued); and its result is always either an
error or the parsed JSON body of a successful oracle response, returned
verbatim — there is no silent failure and no partial result. -/
theorem request_error_or_verbatim (st : ClientState) (now : Int)
    (net : List HttpResponse) (endpoint method : String)
    (params : Option (List (String × JsonVal))) (body : Option JsonVal) :
    ((ensureAuthenticated st now net).result = false →
        (request st now net endpoint method params body).result
          = .error .notAuthenticated ∧
        (request st now net endpoint method params body).calls
          = (ensureAuthenticated st now net).calls) ∧
    (∀ j, (request st now net endpoint method params body).result = .ok j →
        ∃ r, r ∈ net ∧ respOk r = true ∧ r.json = some j) := by
  constructor
  · intro hf
    unfold request
    dsimp only
    rw [hf]
    exact ⟨rfl, rfl⟩
  · intro j hj
    unfold request at hj
    dsimp only at hj
    by_cases hf : (ensureAuthenticated st now net).result = true
    · simp only [hf, Bool.not_true, Bool.false_eq_true, if_false] at hj
      have hm := requestCore_ok_mem _ _ _ _ _ _ hj
      rcases hm with ⟨r, hr, hok, hjs⟩
      refine ⟨r, ?_, hok, hjs⟩
      rcases ensureAuthenticated_net_cases st now net with h' | h'
      · rwa [h'] at hr
      · rw [h'] at hr; exact List.mem_of_mem_tail hr
    · have hf' : (ensureAuthenticated st now net).result = false :=
        Bool.eq_false_iff.mpr hf
      simp only [hf', Bool.not_false, if_true] at hj
      exact Except.noConfusion hj

/-- Witness for C6 at a concrete input: no token and no credentials, so
the authentication gate fails and `notAuthenticated` is thrown with no
request issued. -/
theorem request_error_or_verbatim_witness :
    (request stEmpty 0 [] "api/v53a/" "GET" none none).result
      = .error .notAuthenticated ∧
    (request stEmpty 0 [] "api/v53a/" "GET" none none).calls
      = (ensureAuthenticated stEmpty 0 []).calls :=
  (request_error_or_verbatim stEmpty 0 [] "api/v53a/" "GET" none none).1 rfl

/-- Claim C1 as amended: when the first response to the request is a 401,
the client discards the cached token, performs exactly one
re-authentication (on the cleared state, with stored credentials) and, if
it succeeds, retries the exact same request exactly once with refreshed
headers; a non-2xx retry response (including a second 401) is a terminal
`requestFailed` error with no further retry; but a failed re-authentication
propagates the authentication error itself (the `AuthenticationFailed`
kind, not `RequestFailed` as the uncorrected claim says), again with no
retry.  The recorded calls show at most the initial request, the single
authentication POST, and the single retry. -/
theorem requestCore_401_policy (st : ClientState) (rest1 : List HttpResponse)
    (r1 : HttpResponse) (url method : String) (b : Option JsonVal)
    (h401 : r1.status = 401) :
    (∀ e, (authenticate (clearStoredToken st) rest1 none none).result = .error e →
        (requestCore st (r1 :: rest1) url method b).result = .error e ∧
        (requestCore st (r1 :: rest1) url method b).calls =
          ⟨method, url, getHeaders st, b⟩ ::
            (authenticate (clearStoredToken st) rest1 none none).calls) ∧
    ((authenticate (clearStoredToken st) rest1 none none).result = .ok true →
        (requestCore st (r1 :: rest1) url method b).calls =
          ⟨method, url, getHeaders st, b⟩ ::
            ((authenticate (clearStoredToken st) rest1 none none).calls ++
              [⟨method, url,
                getHeaders (authenticate (clearStoredToken st) rest1 none none).state,
                b⟩]) ∧
        (∀ r2 rest2,
            (authenticate (clearStoredToken st) rest1 none none).net = r2 :: rest2 →
            (requestCore st (r1 :: rest1) url method b).result = finishResponse r2 ∧
            (respOk r2 = false →
              (requestCore st (r1 :: rest1) url method b).result =
                .error (.requestFailed r2.status r2.body))) ∧
        ((authenticate (clearStoredToken st) rest1 none none).net = [] →
            (requestCore st (r1 :: rest1) url method b).result
              = .error .networkError)) := by
  have hs : (r1.status == 401) = true := by simp [h401]
  unfold requestCore
  dsimp only
  rw [if_pos hs]
  rcases ha : authenticate (clearStoredToken st) rest1 none none with
    ⟨res, st3, calls2, rest2'⟩
  cases res with
  | error e0 =>
    dsimp only
    constructor
    · intro e he
      injection he with h1
      subst h1
      exact ⟨rfl, rfl⟩
    · intro hok
      exact Except.noConfusion hok
  | ok refreshed =>
    dsimp only
    constructor
    · intro e he
      exact Except.noConfusion he
    · intro hok
      injection hok with hrf
      subst hrf
      cases rest2' with
      | nil =>
        refine ⟨rfl, ?_, ?_⟩
        · intro r2 rest2 hcon
          exact List.noConfusion hcon
        · intro _
          rfl
      | cons r2' rest3' =>
        refine ⟨rfl, ?_, ?_⟩
        · intro r2 rest2 hcon
          injection hcon with h1 h2
          subst h1
          refine ⟨rfl, ?_⟩
          intro hnok
          exact finishResponse_not_ok r2' hnok
        · intro hcon
          exact List.noConfusion hcon

/-- Witness for C1's amended theorem at a concrete input: valid token,
first response 401, re-authentication succeeds, retry answered by a second
401, which surfaces as `requestFailed` with no further retry. -/
theorem requestCore_401_policy_witness :
    (requestCore stValid
        [⟨401, "unauthorized", none⟩,
          ⟨200, "", some (.obj [("token", .str "t2"), ("expires_at", .str "86400000")])⟩,
          ⟨401, "nope", none⟩] "http://aiprediction.us/api/v53a/" "GET" none).result
      = .error (.requestFailed 401 "nope") := by
  have h := requestCore_401_policy stValid
      [⟨200, "", some (.obj [("token", .str "t2"), ("expires_at", .str "86400000")])⟩,
        ⟨401, "nope", none⟩]
      ⟨401, "unauthorized", none⟩ "http://aiprediction.us/api/v53a/" "GET" none rfl
  exact ((h.2 rfl).2.1 ⟨401, "nope", none⟩ [] rfl).2 rfl

end ApiClient
